import Mathlib

/-!
Shallow embedding of The-Observatory's benchmark pipeline.

The embedding covers, translated from the TypeScript source:
- `executeBenchmark` (server benchmark router): the sequential benchmark
  loop, its per-iteration try/catch, the final metrics computation and the
  terminal status updates of a Run.
- the `/complete-run/:runId` handler's statistics computation
  (`completeRunStats`).
- `DatabaseStorage.getBenchmarkAggregatedMetrics` (dashboard summary over
  completed runs in a time window).
- `SanctumGatewayService`: mock-mode selection and the live JSON-RPC
  error handling of `buildGatewayTransaction`, `sendTransaction` and
  `getTipInstructions`.

Modelling conventions:
- JavaScript numbers are modelled as `ℚ` with exact arithmetic;
  `x.toFixed(d)` is modelled by `toFixedQ d` (round half towards +∞ at `d`
  fractional digits, matching the ECMAScript tie-breaking rule).
  Division in `ℚ` is total with `x / 0 = 0`, whereas JS yields `NaN`;
  every statement below that divides uses a nonzero denominator.
- External effects (RPC probes, Gateway HTTP responses, database writes,
  the wall clock) are oracle inputs threaded through environment records;
  a database write that would throw is an `Option String` carrying the
  thrown message (`none` = the write succeeded).
- Broadcast events and the inter-attempt sleep are recorded in an action
  trace so that claims about progress events and the delay are statable.
- The `metadata` JSON column of attempt records is not modelled; no claim
  refers to it.
-/

set_option autoImplicit false

/-- Result object returned by `SanctumGatewayService.sendTransaction`
(both mock and live shapes). `signature` is `none` when the underlying
JSON value is `undefined`/`null`. -/
structure SendResult where
  signature : Option String
  status : String
  route : String
  confirmationTime : ℚ
  cost : ℚ
  jitoTipRefunded : ℚ
  deriving DecidableEq, Repr

/-- JS truthiness of an optional string (`undefined`, `null` and `""` are
falsy). Used for `result.signature` checks. -/
def sigTruthy : Option String → Bool
  | none => false
  | some s => !(s == "")

/-- JS `x || null` on an optional string: empty string collapses to null. -/
def jsOrNull : Option String → Option String
  | none => none
  | some s => if s == "" then none else some s

/-- JS string interpolation of a possibly-undefined value. -/
def jsShow : Option String → String
  | none => "undefined"
  | some s => s

/-- Model of ECMAScript `Number.prototype.toFixed(d)` on an exact rational:
the nearest multiple of `10^(-d)`, ties resolved towards the larger value. -/
def toFixedQ (d : ℕ) (q : ℚ) : ℚ :=
  ((⌊q * (10 : ℚ) ^ d + 1 / 2⌋ : ℤ) : ℚ) / (10 : ℚ) ^ d

/-- Sum of a rational list (JS `reduce((a, b) => a + b, 0)`). -/
def sumQ (l : List ℚ) : ℚ := l.foldr (· + ·) 0

/-- JS `arr.length > 0 ? sum / length : 0`. -/
def avgOr0 (l : List ℚ) : ℚ :=
  if l.length = 0 then 0 else sumQ l / (l.length : ℚ)

/-- JS `Math.min(...xs)` on a nonempty natural list (`0` fallback matches
the guarded call sites, which only evaluate it on nonempty lists). -/
def listMinN : List ℕ → ℕ
  | [] => 0
  | x :: xs => xs.foldl Nat.min x

/-- JS `Math.max(...xs)` counterpart of `listMinN`. -/
def listMaxN : List ℕ → ℕ
  | [] => 0
  | x :: xs => xs.foldl Nat.max x

/-- Cast a list of naturals (latencies in ms) to rationals. -/
def castList (l : List ℕ) : List ℚ := l.map (fun x => (x : ℚ))

/-- One persisted row of the `benchmark_transactions` table, as written by
the handlers modelled here. -/
structure AttemptRec where
  txHash : Option String
  status : String
  latencyMs : Option ℕ
  feeSol : Option ℚ
  jitoTipRefunded : Option ℚ
  errorMessage : Option String
  deriving DecidableEq, Repr

/-- One row of the `benchmark_runs` table (the fields the benchmark
pipeline reads or writes). `none` summary fields model SQL NULL. -/
structure RunRec where
  totalTransactions : ℕ
  successfulTransactions : ℕ
  failedTransactions : ℕ
  successRate : Option ℚ
  avgLatency : Option ℚ
  minLatency : Option ℚ
  maxLatency : Option ℚ
  avgCost : Option ℚ
  totalCost : Option ℚ
  jitoTipRefunded : Option ℚ
  status : String
  deriving DecidableEq, Repr

/-- Run row as created by the `/run` route before `executeBenchmark`
starts: zero counts, NULL summaries, status `running`. -/
def initialRun (n : ℕ) : RunRec :=
  { totalTransactions := n
    successfulTransactions := 0
    failedTransactions := 0
    successRate := none
    avgLatency := none
    minLatency := none
    maxLatency := none
    avgCost := none
    totalCost := none
    jitoTipRefunded := none
    status := "running" }

/-- Observable actions of the benchmark loop: broadcast events and the
inter-attempt `setTimeout` delay. -/
inductive BenchAction where
  | progress (completed total successCount failedCount : ℕ)
  | complete (successCount failedCount : ℕ) (successRate avgLatency avgCost : ℚ)
  | errorEv (msg : String)
  | sleep (ms : ℕ)
  deriving DecidableEq, Repr

/-- Oracle for one iteration of the benchmark loop. `gateway` collapses
steps a–d (build instructions, `getLatestBlockhash`,
`buildGatewayTransaction`, decode, sign, `sendTransaction`): an exception
anywhere in them is `Except.error` with the thrown message, otherwise the
`sendTransaction` result. `elapsedTry`/`elapsedCatch` are the wall-clock
readings `Date.now() - startTime` taken after the send and inside the
catch handler. The three `persist*Err` fields give the outcome of the
`storage.createBenchmarkTransaction` call in the success branch, the
unexpected-status branch and the catch handler. -/
structure IterEnv where
  gateway : Except String SendResult
  elapsedTry : ℕ
  elapsedCatch : ℕ
  persistSuccessErr : Option String
  persistElseErr : Option String
  persistCatchErr : Option String

/-- In-memory accumulators of `executeBenchmark`, together with the
persisted attempt rows and the action trace produced so far. -/
structure LoopState where
  successCount : ℕ
  failedCount : ℕ
  latencies : List ℕ
  costs : List ℚ
  refunds : List ℚ
  attempts : List AttemptRec
  trace : List BenchAction

/-- Initial loop state. -/
def initState : LoopState :=
  { successCount := 0, failedCount := 0, latencies := [], costs := []
    refunds := [], attempts := [], trace := [] }

/-- Attempt row written in the success branch of the loop. -/
def successRec (r : SendResult) (latency : ℕ) : AttemptRec :=
  { txHash := r.signature
    status := "success"
    latencyMs := some latency
    feeSol := some r.cost
    jitoTipRefunded := some r.jitoTipRefunded
    errorMessage := none }

/-- Attempt row written in the unexpected-status branch of the loop. -/
def elseRec (r : SendResult) (latency : ℕ) : AttemptRec :=
  { txHash := jsOrNull r.signature
    status := "failed"
    latencyMs := some latency
    feeSol := none
    jitoTipRefunded := none
    errorMessage := some ("Unexpected status: " ++ r.status ++ ", signature: " ++ jsShow r.signature) }

/-- Attempt row written in the catch handler of the loop. -/
def catchRec (msg : String) (elapsed : ℕ) : AttemptRec :=
  { txHash := none
    status := "failed"
    latencyMs := some elapsed
    feeSol := none
    jitoTipRefunded := none
    errorMessage := some msg }

/-- The catch handler of one loop iteration: increments `failedCount`,
persists a failed attempt row (a throw here propagates and aborts the
whole run), broadcasts progress and does NOT sleep. -/
def catchPath (n idx : ℕ) (i : IterEnv) (msg : String) (st : LoopState) :
    Except (String × LoopState) LoopState :=
  let st1 : LoopState := { st with failedCount := st.failedCount + 1 }
  match i.persistCatchErr with
  | some e => Except.error (e, st1)
  | none =>
      Except.ok { st1 with
        attempts := st1.attempts ++ [catchRec msg i.elapsedCatch]
        trace := st1.trace ++ [BenchAction.progress (idx + 1) n st1.successCount st1.failedCount] }

/-- One iteration of the benchmark loop (`for` body of
`executeBenchmark`): try the attempt, branch on the send result, persist
one attempt row, broadcast progress and sleep 1000 ms; any exception lands
in `catchPath`. -/
def step (n idx : ℕ) (i : IterEnv) (st : LoopState) :
    Except (String × LoopState) LoopState :=
  match i.gateway with
  | Except.error msg => catchPath n idx i msg st
  | Except.ok r =>
      let latency := i.elapsedTry
      let st1 : LoopState := { st with latencies := st.latencies ++ [latency] }
      if r.status == "success" && sigTruthy r.signature then
        let st2 : LoopState := { st1 with
          successCount := st1.successCount + 1
          costs := if r.cost ≠ 0 then st1.costs ++ [r.cost] else st1.costs
          refunds := if 0 < r.jitoTipRefunded then st1.refunds ++ [r.jitoTipRefunded] else st1.refunds }
        match i.persistSuccessErr with
        | some e => catchPath n idx i e st2
        | none =>
            Except.ok { st2 with
              attempts := st2.attempts ++ [successRec r latency]
              trace := st2.trace ++
                [BenchAction.progress (idx + 1) n st2.successCount st2.failedCount, BenchAction.sleep 1000] }
      else
        let st2 : LoopState := { st1 with failedCount := st1.failedCount + 1 }
        match i.persistElseErr with
        | some e => catchPath n idx i e st2
        | none =>
            Except.ok { st2 with
              attempts := st2.attempts ++ [elseRec r latency]
              trace := st2.trace ++
                [BenchAction.progress (idx + 1) n st2.successCount st2.failedCount, BenchAction.sleep 1000] }

/-- The sequential `for` loop of `executeBenchmark` over the iteration
oracles. An `Except.error` result is an exception escaping an iteration
(it aborts the run), carrying the loop state at that moment. -/
def runLoop (n idx : ℕ) (iters : List IterEnv) (st : LoopState) :
    Except (String × LoopState) LoopState :=
  match iters with
  | [] => Except.ok st
  | i :: rest =>
      match step n idx i st with
      | Except.error e => Except.error e
      | Except.ok st1 => runLoop n (idx + 1) rest st1

/-- The fixed candidate RPC endpoints probed before the loop. -/
def rpcEndpoints : List String :=
  ["https://rpc.gsnode.io", "https://solana-rpc.publicnode.com", "https://api.mainnet-beta.solana.com"]

/-- Oracle for one whole `executeBenchmark` invocation. `keyParseErr` and
`addressErr` are the outcomes of private-key parsing and
`new PublicKey(config.toAddress)`; `endpointProbe` says which candidate
endpoints answer `getLatestBlockhash`; `finalUpdateErr` is the outcome of
the final `updateBenchmarkRun(..., status: 'completed')` write. -/
structure RunEnv where
  keyParseErr : Option String
  addressErr : Option String
  endpointProbe : String → Bool
  iters : List IterEnv
  finalUpdateErr : Option String

/-- Observable outcome of `executeBenchmark`: the final run row, the
persisted attempt rows and the action trace. -/
structure BenchResult where
  run : RunRec
  attempts : List AttemptRec
  trace : List BenchAction

/-- Outcome of the outer catch handler: the run is marked `failed`
(only `status` and `completedAt` are written, so counts and summaries
stay as created) and a `benchmark_error` event carries the message. -/
def failedResult (n : ℕ) (msg : String) (attempts : List AttemptRec)
    (trace : List BenchAction) : BenchResult :=
  { run := { initialRun n with status := "failed" }
    attempts := attempts
    trace := trace ++ [BenchAction.errorEv msg] }

/-- Final metrics computation and `updateBenchmarkRun(..., 'completed')`
of `executeBenchmark`, applied to the loop state after the loop. -/
def finishRun (n : ℕ) (st : LoopState) (env : RunEnv) : BenchResult :=
  let successRate : ℚ := ((st.successCount : ℚ) / (n : ℚ)) * 100
  let avgLatency : ℚ := avgOr0 (castList st.latencies)
  let minLatency : ℚ := if st.latencies.length ≠ 0 then (listMinN st.latencies : ℚ) else 0
  let maxLatency : ℚ := if st.latencies.length ≠ 0 then (listMaxN st.latencies : ℚ) else 0
  let avgCost : ℚ := avgOr0 st.costs
  let totalCost : ℚ := sumQ st.costs
  let totalJito : ℚ := sumQ st.refunds
  match env.finalUpdateErr with
  | some e => failedResult n e st.attempts st.trace
  | none =>
      { run :=
          { totalTransactions := n
            successfulTransactions := st.successCount
            failedTransactions := st.failedCount
            successRate := some (toFixedQ 2 successRate)
            avgLatency := some (toFixedQ 2 avgLatency)
            minLatency := some (toFixedQ 2 minLatency)
            maxLatency := some (toFixedQ 2 maxLatency)
            avgCost := some (toFixedQ 9 avgCost)
            totalCost := some (toFixedQ 9 totalCost)
            jitoTipRefunded := some (toFixedQ 9 totalJito)
            status := "completed" }
        attempts := st.attempts
        trace := st.trace ++
          [BenchAction.complete st.successCount st.failedCount successRate avgLatency avgCost] }

/-- Shallow embedding of `executeBenchmark`: parse key material, resolve
the first answering RPC endpoint, run the sequential loop, then compute
final metrics; any escaping exception marks the run `failed`. The
requested transaction count is the number of iteration oracles. -/
def executeBenchmark (env : RunEnv) : BenchResult :=
  let n := env.iters.length
  match env.keyParseErr with
  | some e => failedResult n e [] []
  | none =>
      match env.addressErr with
      | some e => failedResult n e [] []
      | none =>
          match rpcEndpoints.find? env.endpointProbe with
          | none => failedResult n "All RPC endpoints are unavailable. Please try again later." [] []
          | some _ =>
              match runLoop n 0 env.iters initState with
              | Except.error (msg, st) => failedResult n msg st.attempts st.trace
              | Except.ok st => finishRun n st env

/-- JS truthiness of the nullable `latencyMs` column (`null` and `0` are
falsy), as used by `transactions.filter(t => t.latencyMs)`. -/
def jsTruthyLat (o : Option ℕ) : Bool := o.getD 0 != 0

/-- Fields written by the `/complete-run/:runId` handler's
`updateBenchmarkRun` call (it does not touch `totalTransactions` or
`jitoTipRefunded`). -/
structure CompleteRunUpdate where
  successful : ℕ
  failed : ℕ
  successRate : ℚ
  avgLatency : ℚ
  minLatency : ℚ
  maxLatency : ℚ
  avgCost : ℚ
  totalCost : ℚ
  status : String
  deriving DecidableEq, Repr

/-- Shallow embedding of the `/complete-run/:runId` handler: recompute a
run's final statistics from its persisted transactions and mark it
completed. Latencies are taken over rows with a truthy `latencyMs`; costs
over ALL rows (`Number(t.feeSol) || 0`); monetary values are rendered with
`toFixed(6)`, the rest with `toFixed(2)`. -/
def completeRunStats (txs : List AttemptRec) : CompleteRunUpdate :=
  let successful := (txs.filter (fun t => t.status == "success")).length
  let failed := (txs.filter (fun t => t.status == "failed")).length
  let successRate : ℚ :=
    if txs.length ≠ 0 then ((successful : ℚ) / (txs.length : ℚ)) * 100 else 0
  let latencies : List ℕ :=
    (txs.filter (fun t => jsTruthyLat t.latencyMs)).map (fun t => t.latencyMs.getD 0)
  let avgLatency := avgOr0 (castList latencies)
  let minLatency : ℚ := if latencies.length ≠ 0 then (listMinN latencies : ℚ) else 0
  let maxLatency : ℚ := if latencies.length ≠ 0 then (listMaxN latencies : ℚ) else 0
  let costs := txs.map (fun t => t.feeSol.getD 0)
  let avgCost := avgOr0 costs
  let totalCost := sumQ costs
  { successful := successful
    failed := failed
    successRate := toFixedQ 2 successRate
    avgLatency := toFixedQ 2 avgLatency
    minLatency := toFixedQ 2 minLatency
    maxLatency := toFixedQ 2 maxLatency
    avgCost := toFixedQ 6 avgCost
    totalCost := toFixedQ 6 totalCost
    status := "completed" }

/-- A stored benchmark run together with its creation timestamp
(milliseconds since epoch), as read by the dashboard aggregation. -/
structure StoredRun where
  run : RunRec
  createdAtMs : ℤ

/-- Time-window lookup of `getTimeWindowMs` (unknown windows default to
24h). -/
def getTimeWindowMs (w : String) : ℤ :=
  if w == "1h" then 3600000
  else if w == "24h" then 86400000
  else if w == "7d" then 604800000
  else if w == "30d" then 2592000000
  else 86400000

/-- Shape of the dashboard summary returned by
`getBenchmarkAggregatedMetrics` (string renderings modelled as the exact
rationals they print). -/
structure DashboardMetrics where
  totalBenchmarks : ℕ
  totalTransactions : ℕ
  avgSuccessRate : ℚ
  avgLatency : ℚ
  avgCost : ℚ
  totalCost : ℚ
  deriving DecidableEq, Repr

/-- Shallow embedding of `DatabaseStorage.getBenchmarkAggregatedMetrics`:
filter completed runs inside the time window, then combine their stored
summary rows. `avgSuccessRate` is transaction-weighted, but `avgLatency`
and `avgCost` are unweighted means of the per-run averages. -/
def getBenchmarkAggregatedMetrics (nowMs : ℤ) (timeWindow : String)
    (allRuns : List StoredRun) : DashboardMetrics :=
  let cutoff := nowMs - getTimeWindowMs timeWindow
  let runs := allRuns.filter
    (fun s => (s.run.status == "completed") && decide (cutoff ≤ s.createdAtMs))
  if runs.length = 0 then
    { totalBenchmarks := 0, totalTransactions := 0, avgSuccessRate := 0
      avgLatency := 0, avgCost := 0, totalCost := 0 }
  else
    let totalTransactions : ℕ := (runs.map (fun s => s.run.totalTransactions)).sum
    let totalSuccessful : ℕ := (runs.map (fun s => s.run.successfulTransactions)).sum
    let avgSuccessRate : ℚ :=
      if totalTransactions ≠ 0 then
        toFixedQ 1 (((totalSuccessful : ℚ) / (totalTransactions : ℚ)) * 100)
      else 0
    let avgLatency : ℚ :=
      toFixedQ 0 (sumQ (runs.map (fun s => s.run.avgLatency.getD 0)) / (runs.length : ℚ))
    let avgCost : ℚ :=
      toFixedQ 9 (sumQ (runs.map (fun s => s.run.avgCost.getD 0)) / (runs.length : ℚ))
    let totalCost : ℚ :=
      toFixedQ 9 (sumQ (runs.map (fun s => s.run.totalCost.getD 0)))
    { totalBenchmarks := runs.length
      totalTransactions := totalTransactions
      avgSuccessRate := avgSuccessRate
      avgLatency := avgLatency
      avgCost := avgCost
      totalCost := totalCost }

/-- Accumulator showing that the per-attempt reduction is an associative
fold: counts, sums and min/max over latency-bearing rows. Defined over the
embedding's `AttemptRec`, mirroring the quantities `completeRunStats` and
the final-metrics computation reduce. -/
structure AggAcc where
  total : ℕ
  succ : ℕ
  latSum : ℕ
  latCnt : ℕ
  latMin : Option ℕ
  latMax : Option ℕ
  costSum : ℚ
  deriving DecidableEq, Repr

/-- Neutral accumulator. -/
def emptyAcc : AggAcc :=
  { total := 0, succ := 0, latSum := 0, latCnt := 0, latMin := none
    latMax := none, costSum := 0 }

/-- Combine two optional minima. -/
def optMin : Option ℕ → Option ℕ → Option ℕ
  | none, b => b
  | a, none => a
  | some x, some y => some (Nat.min x y)

/-- Combine two optional maxima. -/
def optMax : Option ℕ → Option ℕ → Option ℕ
  | none, b => b
  | a, none => a
  | some x, some y => some (Nat.max x y)

/-- Accumulator of a single attempt row. -/
def attemptAcc (t : AttemptRec) : AggAcc :=
  { total := 1
    succ := if t.status == "success" then 1 else 0
    latSum := if jsTruthyLat t.latencyMs then t.latencyMs.getD 0 else 0
    latCnt := if jsTruthyLat t.latencyMs then 1 else 0
    latMin := if jsTruthyLat t.latencyMs then some (t.latencyMs.getD 0) else none
    latMax := if jsTruthyLat t.latencyMs then some (t.latencyMs.getD 0) else none
    costSum := t.feeSol.getD 0 }

/-- Monoid operation of the aggregation fold. -/
def combineAcc (a b : AggAcc) : AggAcc :=
  { total := a.total + b.total
    succ := a.succ + b.succ
    latSum := a.latSum + b.latSum
    latCnt := a.latCnt + b.latCnt
    latMin := optMin a.latMin b.latMin
    latMax := optMax a.latMax b.latMax
    costSum := a.costSum + b.costSum }

/-- Aggregation of a list of attempts as a fold of `combineAcc`. -/
def aggAcc (txs : List AttemptRec) : AggAcc :=
  (txs.map attemptAcc).foldr combineAcc emptyAcc

/-- Embedding of the `SanctumGatewayService` constructor state. -/
structure GatewaySvc where
  apiKey : String
  cluster : String
  useMockData : Bool

/-- The constructor: mock mode is selected when the key is empty (falsy)
or equals the placeholder value. -/
def mkService (apiKey cluster : String) : GatewaySvc :=
  { apiKey := apiKey
    cluster := cluster
    useMockData := (apiKey == "") || (apiKey == "your_sanctum_gateway_api_key_here") }

/-- JSON-RPC error object of a `buildGatewayTransaction` response
(`data.error`): code, message and optional stringified data. -/
structure RpcErrObj where
  code : ℤ
  message : String
  data : Option String
  deriving DecidableEq, Repr

/-- HTTP/JSON-RPC response oracle for a live `sendTransaction` call.
`rpcError` is `data.error.message` when the envelope carries an error;
`result` is the returned signature (possibly absent). -/
structure SendHttpResp where
  ok : Bool
  statusText : String
  rpcError : Option String
  result : Option String
  deriving DecidableEq, Repr

/-- Live branch of `sendTransaction`: non-2xx and JSON-RPC error envelopes
are thrown; otherwise the fixed success result is built around
`data.result`. -/
def liveSendTransaction (resp : SendHttpResp) : Except String SendResult :=
  if !resp.ok then Except.error ("Gateway API error: " ++ resp.statusText)
  else
    match resp.rpcError with
    | some m => Except.error ("Gateway RPC error: " ++ m)
    | none =>
        Except.ok
          { signature := resp.result
            status := "success"
            route := "gateway"
            confirmationTime := 0
            cost := 0
            jitoTipRefunded := 0 }

/-- One weighted delivery route of a mock configuration. `rtype` models
the `type` field. -/
structure RouteCfg where
  rtype : String
  weight : ℚ
  enabled : Bool

/-- Inner loop of `selectRouteByWeight`: subtract weights until the drawn
value drops to zero or below. -/
def pickRoute : ℚ → List RouteCfg → Option String
  | _, [] => none
  | r, c :: rest => if r - c.weight ≤ 0 then some c.rtype else pickRoute (r - c.weight) rest

/-- Mock route selection by weight (`"rpc"` when no route is enabled). -/
def selectRouteByWeight (routes : List RouteCfg) (rand : ℚ) : String :=
  let enabled := routes.filter (fun r => r.enabled)
  match enabled with
  | [] => "rpc"
  | c :: cs =>
      let total := sumQ ((c :: cs).map (fun r => r.weight))
      (pickRoute (rand * total) (c :: cs)).getD c.rtype

/-- Mock confirmation-time synthesis per route. -/
def getMockConfirmationTime (route : String) (rand : ℚ) : ℚ :=
  if route == "jito" then rand * 600 + 400
  else if route == "rpc" then rand * 1000 + 800
  else rand * 700 + 500

/-- Mock cost synthesis per route. -/
def getMockCost (route : String) (rand : ℚ) : ℚ :=
  if route == "jito" then rand * 0.003 + 0.002
  else rand * 0.002 + 0.0005

/-- Randomness/clock oracle consumed by the mock branch of
`sendTransaction`. -/
structure MockRand where
  nowMs : ℕ
  sigSuffix : String
  statusRand : ℚ
  routeRand : ℚ
  confRand : ℚ
  costRand : ℚ
  refundRand : ℚ
  refundAmtRand : ℚ

/-- Mock branch of `sendTransaction`. -/
def mockSendResult (routes : List RouteCfg) (m : MockRand) : SendResult :=
  let route := selectRouteByWeight routes m.routeRand
  { signature := some ("mock_" ++ toString m.nowMs ++ "_" ++ m.sigSuffix)
    status := if (1 / 20 : ℚ) < m.statusRand then "success" else "failed"
    route := route
    confirmationTime := getMockConfirmationTime route m.confRand
    cost := getMockCost route m.costRand
    jitoTipRefunded :=
      if route == "jito" ∧ (1 / 2 : ℚ) < m.refundRand then m.refundAmtRand * 0.001 else 0 }

/-- `SanctumGatewayService.sendTransaction`: mock mode synthesizes a
result, live mode performs the JSON-RPC call. -/
def sendTransactionM (svc : GatewaySvc) (routes : List RouteCfg) (m : MockRand)
    (resp : SendHttpResp) : Except String SendResult :=
  if svc.useMockData then Except.ok (mockSendResult routes m)
  else liveSendTransaction resp

/-- Result object of `buildGatewayTransaction`. -/
structure BuildResult where
  transaction : String
  blockhash : Option String
  lastValidBlockHeight : Option String
  deriving DecidableEq, Repr

/-- HTTP/JSON-RPC response oracle for a live `buildGatewayTransaction`
call. -/
structure BuildHttpResp where
  ok : Bool
  statusText : String
  rpcError : Option RpcErrObj
  result : Option BuildResult
  deriving DecidableEq, Repr

/-- Error message composed for a `buildGatewayTransaction` JSON-RPC error
envelope. -/
def buildRpcErrMsg (e : RpcErrObj) : String :=
  "Gateway RPC error [" ++ toString e.code ++ "]: " ++
    (if e.message == "" then "Unknown Gateway error" else e.message) ++
    "\nError details: " ++ e.data.getD "N/A" ++
    "\nTip: Check if transaction is properly formatted and has valid instructions"

/-- Live branch of `buildGatewayTransaction`: length validation, HTTP
error, JSON-RPC error envelope and missing result are all thrown. -/
def liveBuildGatewayTransaction (txB64 : String) (resp : BuildHttpResp) :
    Except String BuildResult :=
  if txB64.length < 10 then
    Except.error "Invalid transaction: transaction data is empty or too short"
  else if !resp.ok then Except.error ("Gateway API error: " ++ resp.statusText)
  else
    match resp.rpcError with
    | some e => Except.error (buildRpcErrMsg e)
    | none =>
        match resp.result with
        | none => Except.error "Gateway returned no result - transaction may be invalid"
        | some r => Except.ok r

/-- `SanctumGatewayService.buildGatewayTransaction`: mock mode echoes the
transaction with a synthetic blockhash, live mode performs the call. -/
def buildGatewayTransactionM (svc : GatewaySvc) (txB64 : String) (mockNowMs : ℕ)
    (resp : BuildHttpResp) : Except String BuildResult :=
  if svc.useMockData then
    Except.ok
      { transaction := txB64
        blockhash := some ("mock_blockhash_" ++ toString mockNowMs)
        lastValidBlockHeight := some "999999" }
  else liveBuildGatewayTransaction txB64 resp

/-- HTTP/JSON-RPC response oracle for a live `getTipInstructions` call
(the instruction payloads are treated as plain strings here). -/
structure TipsHttpResp where
  ok : Bool
  statusText : String
  rpcError : Option String
  result : Option (List String)
  deriving DecidableEq, Repr

/-- Live branch of `getTipInstructions`. -/
def liveGetTipInstructions (resp : TipsHttpResp) : Except String (Option (List String)) :=
  if !resp.ok then Except.error ("Gateway API error: " ++ resp.statusText)
  else
    match resp.rpcError with
    | some m => Except.error ("Gateway RPC error: " ++ m)
    | none => Except.ok resp.result

/-- `SanctumGatewayService.getTipInstructions`: mock mode returns an empty
instruction list, live mode performs the call. -/
def getTipInstructionsM (svc : GatewaySvc) (resp : TipsHttpResp) :
    Except String (Option (List String)) :=
  if svc.useMockData then Except.ok (some []) else liveGetTipInstructions resp

/-- Response sent by the `/submit-signed-tx` handler. -/
structure SubmitResp where
  statusCode : ℕ
  okSignature : Option String
  errMsg : Option String
  deriving DecidableEq, Repr

/-- Shallow embedding of the `/submit-signed-tx` handler: on a send
success it stores a success row (fixed `feeSol` of `0.000005`); on any
thrown error it stores a failed row inside its own try/catch — a failing
store there is swallowed (`dbErr` is only logged) and the 500 response is
still sent. Returns the response and the rows actually persisted. -/
def submitSignedTx (sendRes : Except String SendResult) (latency : ℕ)
    (hasRunId : Bool) (persistOkErr persistFailErr : Option String) :
    SubmitResp × List AttemptRec :=
  match sendRes with
  | Except.ok r =>
      if hasRunId then
        match persistOkErr with
        | none =>
            ({ statusCode := 200, okSignature := r.signature, errMsg := none },
             [{ txHash := r.signature, status := "success", latencyMs := some latency
                feeSol := some 0.000005, jitoTipRefunded := none, errorMessage := none }])
        | some e =>
            match persistFailErr with
            | none =>
                ({ statusCode := 500, okSignature := none, errMsg := some e },
                 [{ txHash := some "", status := "failed", latencyMs := some 0
                    feeSol := some 0, jitoTipRefunded := none, errorMessage := some e }])
            | some _ =>
                ({ statusCode := 500, okSignature := none, errMsg := some e }, [])
      else ({ statusCode := 200, okSignature := r.signature, errMsg := none }, [])
  | Except.error e =>
      if hasRunId then
        match persistFailErr with
        | none =>
            ({ statusCode := 500, okSignature := none, errMsg := some e },
             [{ txHash := some "", status := "failed", latencyMs := some 0
                feeSol := some 0, jitoTipRefunded := none, errorMessage := some e }])
        | some _ => ({ statusCode := 500, okSignature := none, errMsg := some e }, [])
      else ({ statusCode := 500, okSignature := none, errMsg := some e }, [])

/-- Does this iteration's oracle raise an exception inside the try block
before the result branch? -/
def isErrIter (i : IterEnv) : Bool :=
  match i.gateway with
  | Except.error _ => true
  | Except.ok _ => false

/-- Does this iteration take the success branch? -/
def isSuccessIter (i : IterEnv) : Bool :=
  match i.gateway with
  | Except.ok r => r.status == "success" && sigTruthy r.signature
  | Except.error _ => false

/-- Latencies pushed to the in-memory array: one entry per iteration whose
gateway round-trip returned without exception. -/
def liveLats (iters : List IterEnv) : List ℕ :=
  iters.filterMap (fun i =>
    match i.gateway with
    | Except.ok _ => some i.elapsedTry
    | Except.error _ => none)

/-- Costs pushed to the in-memory array: success-branch iterations with a
truthy `result.cost`. -/
def liveCosts (iters : List IterEnv) : List ℚ :=
  iters.filterMap (fun i =>
    match i.gateway with
    | Except.ok r =>
        if r.status == "success" && sigTruthy r.signature then
          (if r.cost ≠ 0 then some r.cost else none)
        else none
    | Except.error _ => none)

/-- Tip refunds pushed to the in-memory array: success-branch iterations
with a positive refund. -/
def liveRefunds (iters : List IterEnv) : List ℚ :=
  iters.filterMap (fun i =>
    match i.gateway with
    | Except.ok r =>
        if r.status == "success" && sigTruthy r.signature then
          (if 0 < r.jitoTipRefunded then some r.jitoTipRefunded else none)
        else none
    | Except.error _ => none)

/-- Does this iteration reach the `setTimeout(..., 1000)` at the end of
the try block? -/
def iterSleeps (i : IterEnv) : Bool :=
  match i.gateway with
  | Except.error _ => false
  | Except.ok r =>
      if r.status == "success" && sigTruthy r.signature then i.persistSuccessErr.isNone
      else i.persistElseErr.isNone

/-- Number of sleep actions in a trace. -/
def countSleep (tr : List BenchAction) : ℕ :=
  (tr.filter (fun a =>
    match a with
    | BenchAction.sleep _ => true
    | _ => false)).length

/-- The attempt row an iteration persists when its branch's store
succeeds. -/
def attemptOf (i : IterEnv) : AttemptRec :=
  match i.gateway with
  | Except.error m => catchRec m i.elapsedCatch
  | Except.ok r =>
      if r.status == "success" && sigTruthy r.signature then successRec r i.elapsedTry
      else elseRec r i.elapsedTry

/-- Latencies recorded on persisted attempt rows. -/
def recordedLats (atts : List AttemptRec) : List ℕ :=
  atts.filterMap (fun t => t.latencyMs)

/-- The constant success result live `sendTransaction` returns for a
response carrying signature `sig` (see `liveSendTransaction`). -/
def liveOkSend (sig : String) : SendResult :=
  { signature := some sig, status := "success", route := "gateway"
    confirmationTime := 0, cost := 0, jitoTipRefunded := 0 }

/-- Iteration oracle: the attempt succeeds end to end and every store
succeeds. -/
def iterLiveOk (sig : String) (ms : ℕ) : IterEnv :=
  { gateway := Except.ok (liveOkSend sig), elapsedTry := ms, elapsedCatch := ms
    persistSuccessErr := none, persistElseErr := none, persistCatchErr := none }

/-- Iteration oracle: some step of the attempt throws `msg`; stores
succeed. -/
def iterThrow (msg : String) (msTry msCatch : ℕ) : IterEnv :=
  { gateway := Except.error msg, elapsedTry := msTry, elapsedCatch := msCatch
    persistSuccessErr := none, persistElseErr := none, persistCatchErr := none }

/-- Endpoint probe oracle: every endpoint answers. -/
def probeAll : String → Bool := fun _ => true

/-- Endpoint probe oracle: no endpoint answers. -/
def probeNone : String → Bool := fun _ => false

/-- Run oracle for the spec scenario of claim C3: `count = 3`, the second
attempt's submit call throws, the others succeed. -/
def envScenario3 : RunEnv :=
  { keyParseErr := none, addressErr := none, endpointProbe := probeAll
    iters := [iterLiveOk "sig1" 120, iterThrow "Gateway API error: Bad Gateway" 80 80,
      iterLiveOk "sig3" 95]
    finalUpdateErr := none }

/-- Run oracle: a single attempt succeeds but persisting its success row
throws; the catch-handler store succeeds. -/
def envPersistSuccessFail : RunEnv :=
  { keyParseErr := none, addressErr := none, endpointProbe := probeAll
    iters := [{ gateway := Except.ok (liveOkSend "sigA"), elapsedTry := 100, elapsedCatch := 130
                persistSuccessErr := some "insert failed", persistElseErr := none
                persistCatchErr := none }]
    finalUpdateErr := none }

/-- Run oracle: a single attempt succeeds but both the success-row store
and the catch-handler store throw. -/
def envPersistBothFail : RunEnv :=
  { keyParseErr := none, addressErr := none, endpointProbe := probeAll
    iters := [{ gateway := Except.ok (liveOkSend "sigB"), elapsedTry := 100, elapsedCatch := 130
                persistSuccessErr := some "db down", persistElseErr := none
                persistCatchErr := some "db down" }]
    finalUpdateErr := none }

/-- Run oracle: a single attempt throws and persisting its failed row also
throws. -/
def envCatchAbort : RunEnv :=
  { keyParseErr := none, addressErr := none, endpointProbe := probeAll
    iters := [{ gateway := Except.error "fetch failed", elapsedTry := 0, elapsedCatch := 45
                persistSuccessErr := none, persistElseErr := none
                persistCatchErr := some "insert failed" }]
    finalUpdateErr := none }

/-- Run oracle: a single attempt throws after 500 ms; stores succeed. -/
def envOneThrow500 : RunEnv :=
  { keyParseErr := none, addressErr := none, endpointProbe := probeAll
    iters := [iterThrow "Network timeout" 100 500]
    finalUpdateErr := none }

/-- Run oracle: a single attempt throws; stores succeed (delay claim). -/
def envOneThrow300 : RunEnv :=
  { keyParseErr := none, addressErr := none, endpointProbe := probeAll
    iters := [iterThrow "Connection refused" 100 300]
    finalUpdateErr := none }

/-- Run oracle: one live-mode attempt whose gateway JSON-RPC response had
no `result`, so the returned object has `status = success` but no
signature; stores succeed. -/
def envNoResultLive : RunEnv :=
  { keyParseErr := none, addressErr := none, endpointProbe := probeAll
    iters := [{ gateway := Except.ok
                  { signature := none, status := "success", route := "gateway"
                    confirmationTime := 0, cost := 0, jitoTipRefunded := 0 }
                elapsedTry := 60, elapsedCatch := 60
                persistSuccessErr := none, persistElseErr := none, persistCatchErr := none }]
    finalUpdateErr := none }

/-- Fixed randomness oracle (unused by live-mode calls). -/
def mr0 : MockRand :=
  { nowMs := 0, sigSuffix := "x", statusRand := 0, routeRand := 0, confRand := 0
    costRand := 0, refundRand := 0, refundAmtRand := 0 }

/-- Run row produced by `/init-run` with requested count `n` followed by
the `/complete-run` update computed from the stored transactions. -/
def runOfStats (n : ℕ) (txs : List AttemptRec) : RunRec :=
  { totalTransactions := n
    successfulTransactions := (completeRunStats txs).successful
    failedTransactions := (completeRunStats txs).failed
    successRate := some (completeRunStats txs).successRate
    avgLatency := some (completeRunStats txs).avgLatency
    minLatency := some (completeRunStats txs).minLatency
    maxLatency := some (completeRunStats txs).maxLatency
    avgCost := some (completeRunStats txs).avgCost
    totalCost := some (completeRunStats txs).totalCost
    jitoTipRefunded := none
    status := (completeRunStats txs).status }

/-- Attempts of a first stored run (one transaction at 100 ms). -/
def a1C4 : List AttemptRec :=
  [{ txHash := some "t1", status := "success", latencyMs := some 100, feeSol := some 0
     jitoTipRefunded := none, errorMessage := none }]

/-- Attempts of a second stored run (two transactions at 400 ms). -/
def a2C4 : List AttemptRec :=
  [{ txHash := some "t2", status := "success", latencyMs := some 400, feeSol := some 0
     jitoTipRefunded := none, errorMessage := none },
   { txHash := some "t3", status := "success", latencyMs := some 400, feeSol := some 0
     jitoTipRefunded := none, errorMessage := none }]

/-- A stored transaction whose fee needs more than 6 fractional digits. -/
def txSmallFee : List AttemptRec :=
  [{ txHash := some "t", status := "success", latencyMs := some 10
     feeSol := some (4 / 10000000), jitoTipRefunded := none, errorMessage := none }]

/-! Helper lemmas characterizing the loop. -/

theorem countSleep_append (xs ys : List BenchAction) :
    countSleep (xs ++ ys) = countSleep xs + countSleep ys := by
  simp [countSleep, List.filter_append]

theorem catchPath_ok_spec (n idx : ℕ) (i : IterEnv) (msg : String) (st st' : LoopState)
    (h : catchPath n idx i msg st = Except.ok st') :
    i.persistCatchErr = none ∧
    st' = { st with
      failedCount := st.failedCount + 1
      attempts := st.attempts ++ [catchRec msg i.elapsedCatch]
      trace := st.trace ++ [BenchAction.progress (idx + 1) n st.successCount (st.failedCount + 1)] } := by
  unfold catchPath at h
  cases hpc : i.persistCatchErr with
  | some e => rw [hpc] at h; exact absurd h (by simp)
  | none =>
      rw [hpc] at h
      refine ⟨rfl, ?_⟩
      cases h
      rfl

theorem catchPath_error_spec (n idx : ℕ) (i : IterEnv) (msg e : String) (st st' : LoopState)
    (h : catchPath n idx i msg st = Except.error (e, st')) :
    i.persistCatchErr = some e ∧
    st' = { st with failedCount := st.failedCount + 1 } := by
  unfold catchPath at h
  cases hpc : i.persistCatchErr with
  | some e1 =>
      rw [hpc] at h
      refine ⟨?_, ?_⟩
      · cases h; rfl
      · cases h; rfl
  | none => rw [hpc] at h; exact absurd h (by simp)

theorem step_ok_spec (n idx : ℕ) (i : IterEnv) (st st' : LoopState)
    (h : step n idx i st = Except.ok st') :
    st'.latencies = st.latencies ++ liveLats [i] ∧
    st'.costs = st.costs ++ liveCosts [i] ∧
    st'.refunds = st.refunds ++ liveRefunds [i] ∧
    countSleep st'.trace = countSleep st.trace + (if iterSleeps i then 1 else 0) ∧
    (i.persistSuccessErr = none ∧ i.persistElseErr = none →
      st'.successCount = st.successCount + (if isSuccessIter i then 1 else 0) ∧
      st'.failedCount = st.failedCount + (if isSuccessIter i then 0 else 1) ∧
      st'.attempts = st.attempts ++ [attemptOf i]) := by
  unfold step at h
  cases hg : i.gateway with
  | error msg =>
      rw [hg] at h
      obtain ⟨hpc, hst⟩ := catchPath_ok_spec n idx i msg st st' h
      subst hst
      simp [liveLats, liveCosts, liveRefunds, iterSleeps, isSuccessIter, attemptOf, hg,
        List.filterMap_cons, countSleep_append, countSleep]
  | ok r =>
      rw [hg] at h
      dsimp only [] at h
      by_cases hs : (r.status == "success" && sigTruthy r.signature) = true
      · rw [if_pos hs] at h
        simp only [Bool.and_eq_true, beq_iff_eq] at hs
        obtain ⟨hs1, hs2⟩ := hs
        cases hps : i.persistSuccessErr with
        | some e =>
            rw [hps] at h
            dsimp only [] at h
            obtain ⟨hpc, hst⟩ := catchPath_ok_spec n idx i e _ st' h
            subst hst
            refine ⟨by simp [liveLats, List.filterMap_cons, hg], ?_, ?_, ?_, ?_⟩
            · by_cases hc : r.cost = 0 <;> simp [liveCosts, List.filterMap_cons, hg, hs1, hs2, hc]
            · by_cases hr : 0 < r.jitoTipRefunded <;> simp [liveRefunds, List.filterMap_cons, hg, hs1, hs2, hr]
            · simp [iterSleeps, hg, hs1, hs2, hps, countSleep_append, countSleep]
            · rintro ⟨hps2, -⟩
              exact absurd hps2 (by simp [hps])
        | none =>
            rw [hps] at h
            dsimp only [] at h
            cases h
            refine ⟨by simp [liveLats, List.filterMap_cons, hg], ?_, ?_, ?_, ?_⟩
            · by_cases hc : r.cost = 0 <;> simp [liveCosts, List.filterMap_cons, hg, hs1, hs2, hc]
            · by_cases hr : 0 < r.jitoTipRefunded <;> simp [liveRefunds, List.filterMap_cons, hg, hs1, hs2, hr]
            · simp [iterSleeps, hg, hs1, hs2, hps, countSleep_append, countSleep]
            · intro _
              simp [isSuccessIter, hg, hs1, hs2, attemptOf]
      · rw [if_neg hs] at h
        simp only [Bool.and_eq_true, beq_iff_eq] at hs
        cases hpe : i.persistElseErr with
        | some e =>
            rw [hpe] at h
            dsimp only [] at h
            obtain ⟨hpc, hst⟩ := catchPath_ok_spec n idx i e _ st' h
            subst hst
            refine ⟨by simp [liveLats, List.filterMap_cons, hg], ?_, ?_, ?_, ?_⟩
            · simp [liveCosts, List.filterMap_cons, hg, hs]
            · simp [liveRefunds, List.filterMap_cons, hg, hs]
            · simp [iterSleeps, hg, hs, hpe, countSleep_append, countSleep]
            · rintro ⟨-, hpe2⟩
              exact absurd hpe2 (by simp [hpe])
        | none =>
            rw [hpe] at h
            dsimp only [] at h
            cases h
            refine ⟨by simp [liveLats, List.filterMap_cons, hg], ?_, ?_, ?_, ?_⟩
            · simp [liveCosts, List.filterMap_cons, hg, hs]
            · simp [liveRefunds, List.filterMap_cons, hg, hs]
            · simp [iterSleeps, hg, hs, hpe, countSleep_append, countSleep]
            · intro _
              simp [isSuccessIter, hg, hs, attemptOf]

theorem step_isOk (n idx : ℕ) (i : IterEnv) (st : LoopState)
    (hpc : i.persistCatchErr = none) :
    ∃ st', step n idx i st = Except.ok st' := by
  unfold step catchPath
  cases hg : i.gateway with
  | error msg =>
      rw [hpc]
      exact ⟨_, rfl⟩
  | ok r =>
      dsimp only []
      by_cases hs : (r.status == "success" && sigTruthy r.signature) = true
      · rw [if_pos hs]
        cases hps : i.persistSuccessErr with
        | some e => rw [hpc]; exact ⟨_, rfl⟩
        | none => exact ⟨_, rfl⟩
      · rw [if_neg hs]
        cases hpe : i.persistElseErr with
        | some e => rw [hpc]; exact ⟨_, rfl⟩
        | none => exact ⟨_, rfl⟩

theorem filterMap_singleton_append {α β : Type} (f : α → Option β) (a : α) (l : List α) :
    List.filterMap f [a] ++ List.filterMap f l = List.filterMap f (a :: l) := by
  cases hfa : f a <;> simp [List.filterMap_cons, hfa]

theorem runLoop_ok_spec (iters : List IterEnv) : ∀ (n idx : ℕ) (st st' : LoopState),
    runLoop n idx iters st = Except.ok st' →
    st'.latencies = st.latencies ++ liveLats iters ∧
    st'.costs = st.costs ++ liveCosts iters ∧
    st'.refunds = st.refunds ++ liveRefunds iters ∧
    countSleep st'.trace = countSleep st.trace + (iters.filter iterSleeps).length ∧
    ((∀ i ∈ iters, i.persistSuccessErr = none ∧ i.persistElseErr = none) →
      st'.successCount = st.successCount + (iters.filter isSuccessIter).length ∧
      st'.failedCount = st.failedCount + (iters.filter (fun i => !(isSuccessIter i))).length ∧
      st'.attempts = st.attempts ++ iters.map attemptOf) := by
  induction iters with
  | nil =>
      intro n idx st st' h
      simp only [runLoop] at h
      cases h
      simp [liveLats, liveCosts, liveRefunds]
  | cons i rest ih =>
      intro n idx st st' h
      simp only [runLoop] at h
      cases hstep : step n idx i st with
      | error e => rw [hstep] at h; exact absurd h (by simp)
      | ok st1 =>
          rw [hstep] at h
          obtain ⟨l1, c1, r1, s1, p1⟩ := step_ok_spec n idx i st st1 hstep
          obtain ⟨l2, c2, r2, s2, p2⟩ := ih n (idx + 1) st1 st' h
          refine ⟨?_, ?_, ?_, ?_, ?_⟩
          · rw [l2, l1, List.append_assoc]
            unfold liveLats
            rw [filterMap_singleton_append]
          · rw [c2, c1, List.append_assoc]
            unfold liveCosts
            rw [filterMap_singleton_append]
          · rw [r2, r1, List.append_assoc]
            unfold liveRefunds
            rw [filterMap_singleton_append]
          · rw [s2, s1]
            cases hsl : iterSleeps i <;> simp [hsl, List.filter_cons] <;> omega
          · intro hp
            have hpi := hp i (List.mem_cons_self i rest)
            have hprest : ∀ j ∈ rest, j.persistSuccessErr = none ∧ j.persistElseErr = none :=
              fun j hj => hp j (List.mem_cons_of_mem i hj)
            obtain ⟨sc1, fc1, at1⟩ := p1 hpi
            obtain ⟨sc2, fc2, at2⟩ := p2 hprest
            refine ⟨?_, ?_, ?_⟩
            · rw [sc2, sc1]
              cases hsi : isSuccessIter i <;> simp [hsi, List.filter_cons] <;> omega
            · rw [fc2, fc1]
              cases hsi : isSuccessIter i <;> simp [hsi, List.filter_cons] <;> omega
            · rw [at2, at1]
              simp [List.append_assoc]

theorem runLoop_isOk (iters : List IterEnv) : ∀ (n idx : ℕ) (st : LoopState),
    (∀ i ∈ iters, i.persistCatchErr = none) →
    ∃ st', runLoop n idx iters st = Except.ok st' := by
  induction iters with
  | nil => intro n idx st _; exact ⟨st, rfl⟩
  | cons i rest ih =>
      intro n idx st hp
      obtain ⟨st1, hst1⟩ := step_isOk n idx i st (hp i (List.mem_cons_self i rest))
      obtain ⟨st', hst'⟩ := ih n (idx + 1) st1 (fun j hj => hp j (List.mem_cons_of_mem i hj))
      exact ⟨st', by simp only [runLoop, hst1, hst']⟩

theorem executeBenchmark_completed_shape (env : RunEnv)
    (h : (executeBenchmark env).run.status = "completed") :
    env.keyParseErr = none ∧ env.addressErr = none ∧ env.finalUpdateErr = none ∧
    ∃ st, runLoop env.iters.length 0 env.iters initState = Except.ok st ∧
      executeBenchmark env = finishRun env.iters.length st env := by
  unfold executeBenchmark at h ⊢
  dsimp only [] at h ⊢
  cases hk : env.keyParseErr with
  | some e => rw [hk] at h; exact absurd h (by simp [failedResult, initialRun])
  | none =>
      rw [hk] at h
      cases ha : env.addressErr with
      | some e => rw [ha] at h; exact absurd h (by simp [failedResult, initialRun])
      | none =>
          rw [ha] at h
          cases hf : rpcEndpoints.find? env.endpointProbe with
          | none => rw [hf] at h; exact absurd h (by simp [failedResult, initialRun])
          | some ep =>
              rw [hf] at h
              cases hl : runLoop env.iters.length 0 env.iters initState with
              | error e =>
                  rw [hl] at h
                  obtain ⟨msg, stx⟩ := e
                  exact absurd h (by simp [failedResult, initialRun])
              | ok st =>
                  rw [hl] at h
                  cases hu : env.finalUpdateErr with
                  | some e =>
                      unfold finishRun at h
                      rw [hu] at h
                      exact absurd h (by simp [failedResult, initialRun])
                  | none =>
                      exact ⟨rfl, rfl, rfl, st, rfl, by simp [hk, ha, hf, hl]⟩

theorem finishRun_run_eq (n : ℕ) (st : LoopState) (env : RunEnv)
    (hu : env.finalUpdateErr = none) :
    (finishRun n st env).run =
      { totalTransactions := n
        successfulTransactions := st.successCount
        failedTransactions := st.failedCount
        successRate := some (toFixedQ 2 (((st.successCount : ℚ) / (n : ℚ)) * 100))
        avgLatency := some (toFixedQ 2 (avgOr0 (castList st.latencies)))
        minLatency := some (toFixedQ 2 (if st.latencies.length ≠ 0 then (listMinN st.latencies : ℚ) else 0))
        maxLatency := some (toFixedQ 2 (if st.latencies.length ≠ 0 then (listMaxN st.latencies : ℚ) else 0))
        avgCost := some (toFixedQ 9 (avgOr0 st.costs))
        totalCost := some (toFixedQ 9 (sumQ st.costs))
        jitoTipRefunded := some (toFixedQ 9 (sumQ st.refunds))
        status := "completed" } := by
  unfold finishRun
  rw [hu]

theorem finishRun_attempts_eq (n : ℕ) (st : LoopState) (env : RunEnv)
    (hu : env.finalUpdateErr = none) :
    (finishRun n st env).attempts = st.attempts := by
  unfold finishRun
  rw [hu]

theorem finishRun_countSleep (n : ℕ) (st : LoopState) (env : RunEnv)
    (hu : env.finalUpdateErr = none) :
    countSleep (finishRun n st env).trace = countSleep st.trace := by
  unfold finishRun
  rw [hu]
  simp [countSleep_append, countSleep]

/-- C9: the Gateway Client operates in mock mode exactly when no real API
key is configured (the key is empty or the documented placeholder); with a
real key all three operations take the live code path, whose HTTP errors
and JSON-RPC error envelopes propagate as thrown errors — no result is
ever replaced by synthesized mock data. -/
theorem gateway_mock_iff_no_real_key (k c : String) (routes : List RouteCfg)
    (m : MockRand) (resp : SendHttpResp) (txB64 : String) (nowMs : ℕ)
    (bresp : BuildHttpResp) (tresp : TipsHttpResp) :
    ((mkService k c).useMockData = true ↔
      (k = "" ∨ k = "your_sanctum_gateway_api_key_here")) ∧
    ((mkService k c).useMockData = false →
      sendTransactionM (mkService k c) routes m resp = liveSendTransaction resp ∧
      buildGatewayTransactionM (mkService k c) txB64 nowMs bresp =
        liveBuildGatewayTransaction txB64 bresp ∧
      getTipInstructionsM (mkService k c) tresp = liveGetTipInstructions tresp) ∧
    (resp.ok = false →
      liveSendTransaction resp = Except.error ("Gateway API error: " ++ resp.statusText)) ∧
    (∀ msg, resp.ok = true → resp.rpcError = some msg →
      liveSendTransaction resp = Except.error ("Gateway RPC error: " ++ msg)) := by
  refine ⟨?_, ?_, ?_, ?_⟩
  · simp [mkService]
  · intro hm
    simp [sendTransactionM, buildGatewayTransactionM, getTipInstructionsM, hm]
  · intro hok
    simp [liveSendTransaction, hok]
  · intro msg hok herr
    simp [liveSendTransaction, hok, herr]

/-- Witness for C9: a concrete real key is live-mode and a concrete HTTP
failure surfaces as a thrown error. -/
theorem gateway_mock_iff_no_real_key_witness :
    sendTransactionM (mkService "prod-key-1" "mainnet") [] mr0
        { ok := false, statusText := "Bad Gateway", rpcError := none, result := none } =
      Except.error "Gateway API error: Bad Gateway" := by
  have h := gateway_mock_iff_no_real_key "prod-key-1" "mainnet" [] mr0
    { ok := false, statusText := "Bad Gateway", rpcError := none, result := none } "tx" 0
    { ok := true, statusText := "", rpcError := none, result := none }
    { ok := true, statusText := "", rpcError := none, result := none }
  rw [(h.2.1 (by decide)).1, h.2.2.1 rfl]
  rfl

/-- C10 (amended): every non-throwing live-mode `sendTransaction` result
is the fixed object with status `success`, cost `0`, confirmationTime `0`
and jitoTipRefunded `0` built around `data.result`; consequently every
completed run whose gateway results all come from live `sendTransaction`
has `avgCost`, `totalCost` and total tip refund equal to zero. (The
runner's unexpected-status branch is NOT unreachable in live mode: it is
taken when the JSON-RPC response carries no `result` — see the
counterexample.) -/
theorem live_send_constant_result_and_zero_costs :
    (∀ (resp : SendHttpResp) (r : SendResult), liveSendTransaction resp = Except.ok r →
      r.status = "success" ∧ r.cost = 0 ∧ r.confirmationTime = 0 ∧
      r.jitoTipRefunded = 0 ∧ r.signature = resp.result) ∧
    (∀ env : RunEnv,
      (∀ i ∈ env.iters, ∀ r, i.gateway = Except.ok r →
        ∃ resp, liveSendTransaction resp = Except.ok r) →
      (executeBenchmark env).run.status = "completed" →
      (executeBenchmark env).run.avgCost = some 0 ∧
      (executeBenchmark env).run.totalCost = some 0 ∧
      (executeBenchmark env).run.jitoTipRefunded = some 0) := by
  have hconst : ∀ (resp : SendHttpResp) (r : SendResult),
      liveSendTransaction resp = Except.ok r →
      r.status = "success" ∧ r.cost = 0 ∧ r.confirmationTime = 0 ∧
      r.jitoTipRefunded = 0 ∧ r.signature = resp.result := by
    intro resp r h
    unfold liveSendTransaction at h
    cases hok : resp.ok with
    | false => rw [hok] at h; exact absurd h (by simp)
    | true =>
        rw [hok] at h
        cases herr : resp.rpcError with
        | some m => rw [herr] at h; exact absurd h (by simp)
        | none =>
            rw [herr] at h
            simp only [Bool.not_true, Bool.false_eq_true, if_false, Except.ok.injEq] at h
            subst h
            simp
  refine ⟨hconst, ?_⟩
  intro env hl hc
  obtain ⟨hk, ha, hu, st, hloop, hexec⟩ := executeBenchmark_completed_shape env hc
  obtain ⟨-, hcosts, hrefunds, -, -⟩ :=
    runLoop_ok_spec env.iters env.iters.length 0 initState st hloop
  have hzc : liveCosts env.iters = [] := by
    unfold liveCosts
    rw [List.filterMap_eq_nil_iff]
    intro i hi
    cases hg : i.gateway with
    | error m => simp
    | ok r =>
        obtain ⟨resp, hresp⟩ := hl i hi r hg
        obtain ⟨-, hc0, -, -, -⟩ := hconst resp r hresp
        by_cases hs : (r.status == "success" && sigTruthy r.signature) = true <;>
          simp [hg, hs, hc0]
  have hzr : liveRefunds env.iters = [] := by
    unfold liveRefunds
    rw [List.filterMap_eq_nil_iff]
    intro i hi
    cases hg : i.gateway with
    | error m => simp
    | ok r =>
        obtain ⟨resp, hresp⟩ := hl i hi r hg
        obtain ⟨-, -, -, hr0, -⟩ := hconst resp r hresp
        by_cases hs : (r.status == "success" && sigTruthy r.signature) = true <;>
          simp [hg, hs, hr0]
  rw [hexec, finishRun_run_eq env.iters.length st env hu]
  rw [hzc] at hcosts
  rw [hzr] at hrefunds
  simp only [initState] at hcosts hrefunds
  simp only [List.append_nil] at hcosts hrefunds
  rw [hcosts, hrefunds]
  norm_num [avgOr0, sumQ, toFixedQ]

/-- Witness for C10: a two-attempt live run (one signature-bearing
success, one thrown error) completes with all monetary summaries zero. -/
theorem live_send_constant_result_and_zero_costs_witness :
    (executeBenchmark envScenario3).run.avgCost = some 0 ∧
    (executeBenchmark envScenario3).run.totalCost = some 0 ∧
    (executeBenchmark envScenario3).run.jitoTipRefunded = some 0 := by
  refine live_send_constant_result_and_zero_costs.2 envScenario3 ?_ ?_
  · intro i hi r hg
    refine ⟨{ ok := true, statusText := "", rpcError := none,
              result := r.signature }, ?_⟩
    simp only [envScenario3, iterLiveOk, iterThrow, liveOkSend, List.mem_cons,
      List.mem_singleton] at hi
    rcases hi with h1 | h2 | h3 | h4
    · subst h1; simp only [iterLiveOk, liveOkSend] at hg
      cases hg
      simp [liveSendTransaction, liveOkSend]
    · subst h2; simp only [iterThrow] at hg; exact absurd hg (by simp [iterThrow])
    · subst h3; simp only [iterLiveOk, liveOkSend] at hg
      cases hg
      simp [liveSendTransaction, liveOkSend]
    · exact absurd h4 (by simp)
  · simp [executeBenchmark, envScenario3, runLoop, step, catchPath, iterLiveOk, iterThrow,
      liveOkSend, initState, finishRun, rpcEndpoints, probeAll, sigTruthy, avgOr0, castList,
      sumQ, listMinN, listMaxN, successRec, elseRec, catchRec, failedResult, initialRun,
      jsOrNull, jsShow]

/-- Counterexample for C10: with a real key configured, a live
`sendTransaction` whose JSON-RPC response carries no `result` returns
without throwing (status `success`, signature absent), and the runner then
takes its non-exception failure branch, recording a failed attempt with an
`Unexpected status` message — the branch is reachable in live mode. -/
theorem live_send_unexpected_branch_reachable_cex :
    sendTransactionM (mkService "prod-key-2" "mainnet") [] mr0
        { ok := true, statusText := "OK", rpcError := none, result := none } =
      Except.ok { signature := none, status := "success", route := "gateway"
                  confirmationTime := 0, cost := 0, jitoTipRefunded := 0 } ∧
    (executeBenchmark envNoResultLive).run.status = "completed" ∧
    (executeBenchmark envNoResultLive).run.failedTransactions = 1 ∧
    (executeBenchmark envNoResultLive).run.successfulTransactions = 0 ∧
    (executeBenchmark envNoResultLive).attempts =
      [{ txHash := none, status := "failed", latencyMs := some 60, feeSol := none
         jitoTipRefunded := none
         errorMessage := some "Unexpected status: success, signature: undefined" }] := by
  refine ⟨by simp [sendTransactionM, mkService, liveSendTransaction], ?_, ?_, ?_, ?_⟩ <;>
    simp [executeBenchmark, envNoResultLive, runLoop, step, catchPath, initState, finishRun,
      rpcEndpoints, probeAll, sigTruthy, avgOr0, castList, sumQ, listMinN, listMaxN,
      successRec, elseRec, catchRec, failedResult, initialRun, jsOrNull, jsShow]

theorem filter_bool_length_split {α : Type} (p : α → Bool) (l : List α) :
    (l.filter p).length + (l.filter (fun a => !(p a))).length = l.length := by
  induction l with
  | nil => rfl
  | cons a t ih =>
      cases hp : p a <;> simp [List.filter_cons, hp] <;> omega

theorem executeBenchmark_cases (env : RunEnv) :
    (executeBenchmark env).run.totalTransactions = env.iters.length ∧
    ((executeBenchmark env).run.status = "completed" ∨
     ((executeBenchmark env).run.status = "failed" ∧
      (executeBenchmark env).run.successfulTransactions = 0 ∧
      (executeBenchmark env).run.failedTransactions = 0)) := by
  unfold executeBenchmark
  dsimp only []
  cases env.keyParseErr with
  | some e => simp [failedResult, initialRun]
  | none =>
      cases env.addressErr with
      | some e => simp [failedResult, initialRun]
      | none =>
          cases rpcEndpoints.find? env.endpointProbe with
          | none => simp [failedResult, initialRun]
          | some ep =>
              cases runLoop env.iters.length 0 env.iters initState with
              | error e =>
                  obtain ⟨m, s⟩ := e
                  simp [failedResult, initialRun]
              | ok st =>
                  unfold finishRun
                  dsimp only []
                  cases env.finalUpdateErr with
                  | some e => simp [failedResult, initialRun]
                  | none => simp

/-- C1 (amended): provided no iteration throws inside the try block after
its outcome was counted (i.e. the per-iteration success- and
unexpected-status-branch stores succeed), the persisted Run row satisfies
`successfulTransactions + failedTransactions ≤ totalTransactions` both as
created and in its terminal state, with equality exactly when the Run
reaches status `completed`; a Run that terminates `failed` keeps its
initially persisted counts `0/0` (the loop never writes running counts to
the Run row), so for it the sum stays strictly below a positive
`totalTransactions`. -/
theorem run_counts_bounded_of_try_persist_ok (env : RunEnv)
    (hp : ∀ i ∈ env.iters, i.persistSuccessErr = none ∧ i.persistElseErr = none) :
    (initialRun env.iters.length).successfulTransactions +
        (initialRun env.iters.length).failedTransactions ≤
      (initialRun env.iters.length).totalTransactions ∧
    (executeBenchmark env).run.successfulTransactions +
        (executeBenchmark env).run.failedTransactions ≤
      (executeBenchmark env).run.totalTransactions ∧
    ((executeBenchmark env).run.status = "completed" →
      (executeBenchmark env).run.successfulTransactions +
          (executeBenchmark env).run.failedTransactions =
        (executeBenchmark env).run.totalTransactions) := by
  obtain ⟨htot, hst⟩ := executeBenchmark_cases env
  refine ⟨by simp [initialRun], ?_, ?_⟩
  all_goals
    cases hst with
    | inl hc =>
        obtain ⟨hk, ha, hu, st, hloop, hexec⟩ := executeBenchmark_completed_shape env hc
        obtain ⟨-, -, -, -, hcounts⟩ :=
          runLoop_ok_spec env.iters env.iters.length 0 initState st hloop
        obtain ⟨hsc, hfc, -⟩ := hcounts hp
        have heq : (executeBenchmark env).run.successfulTransactions +
            (executeBenchmark env).run.failedTransactions =
            (executeBenchmark env).run.totalTransactions := by
          rw [hexec, finishRun_run_eq env.iters.length st env hu]
          simp only []
          rw [hsc, hfc]
          simp only [initState]
          rw [Nat.zero_add, Nat.zero_add]
          exact filter_bool_length_split isSuccessIter env.iters
        first
        | exact Nat.le_of_eq heq
        | exact fun _ => heq
    | inr hf =>
        obtain ⟨hfs, hs0, hf0⟩ := hf
        first
        | rw [hs0, hf0]; exact Nat.zero_le _
        | intro hc; rw [hfs] at hc; exact absurd hc (by simp)

/-- Witness for C1 at the three-iteration scenario run: counts sum to the
requested total once completed. -/
theorem run_counts_bounded_of_try_persist_ok_witness :
    (executeBenchmark envScenario3).run.successfulTransactions +
        (executeBenchmark envScenario3).run.failedTransactions ≤
      (executeBenchmark envScenario3).run.totalTransactions :=
  (run_counts_bounded_of_try_persist_ok envScenario3 (by decide)).2.1

/-- Counterexample for C1: when persisting a successful attempt's row
throws, the iteration is double-counted (success incremented in the try
block, failure incremented again in the catch handler): a completed run
with one requested transaction terminates with
`successfulTransactions + failedTransactions = 2 > 1 = totalTransactions`. -/
theorem run_counts_exceed_total_cex :
    (executeBenchmark envPersistSuccessFail).run.status = "completed" ∧
    (executeBenchmark envPersistSuccessFail).run.totalTransactions = 1 ∧
    (executeBenchmark envPersistSuccessFail).run.successfulTransactions = 1 ∧
    (executeBenchmark envPersistSuccessFail).run.failedTransactions = 1 ∧
    ¬((executeBenchmark envPersistSuccessFail).run.successfulTransactions +
        (executeBenchmark envPersistSuccessFail).run.failedTransactions ≤
      (executeBenchmark envPersistSuccessFail).run.totalTransactions) := by
  refine ⟨?_, ?_, ?_, ?_, ?_⟩ <;>
    simp [executeBenchmark, envPersistSuccessFail, runLoop, step, catchPath, initState,
      finishRun, rpcEndpoints, probeAll, sigTruthy, liveOkSend, avgOr0, castList, sumQ,
      listMinN, listMaxN, successRec, elseRec, catchRec, failedResult, initialRun,
      jsOrNull, jsShow]

/-- C2 (amended): a persistence failure inside the try block (storing the
success row or the unexpected-status row) is caught by the per-iteration
handler, so as long as every catch-handler store succeeds the run still
completes; and in the `/submit-signed-tx` handler a failure to store the
failed-transaction row is swallowed (only logged), leaving the HTTP
response unchanged. A failure of the catch-handler store itself, however,
aborts the run (see the counterexample). -/
theorem persist_failure_in_try_never_aborts (env : RunEnv)
    (hk : env.keyParseErr = none) (ha : env.addressErr = none)
    (hep : (rpcEndpoints.find? env.endpointProbe).isSome = true)
    (hp : ∀ i ∈ env.iters, i.persistCatchErr = none)
    (hu : env.finalUpdateErr = none) :
    (executeBenchmark env).run.status = "completed" ∧
    (∀ (e sendErr : String) (lat : ℕ),
      (submitSignedTx (Except.error sendErr) lat true none (some e)).1 =
        (submitSignedTx (Except.error sendErr) lat true none none).1) := by
  constructor
  · obtain ⟨st, hloop⟩ := runLoop_isOk env.iters env.iters.length 0 initState hp
    obtain ⟨ep, hepEq⟩ := Option.isSome_iff_exists.mp hep
    unfold executeBenchmark
    dsimp only []
    rw [hk, ha, hepEq, hloop]
    unfold finishRun
    dsimp only []
    rw [hu]
  · intro e sendErr lat
    simp [submitSignedTx]

/-- Witness for C2: the run whose only iteration fails to persist its
success row still completes. -/
theorem persist_failure_in_try_never_aborts_witness :
    (executeBenchmark envPersistSuccessFail).run.status = "completed" :=
  (persist_failure_in_try_never_aborts envPersistSuccessFail rfl rfl (by decide)
    (by decide) rfl).1

/-- Counterexample for C2: if the catch-handler store also throws, the
persistence failure propagates and the run is marked `failed` — the loop
does not continue — even though the attempt itself succeeded and the loop
was otherwise healthy. -/
theorem persist_failure_aborts_run_cex :
    (executeBenchmark envPersistBothFail).run.status = "failed" ∧
    (executeBenchmark envPersistBothFail).attempts = [] ∧
    envPersistBothFail.iters.map isSuccessIter = [true] ∧
    (executeBenchmark envPersistBothFail).trace = [BenchAction.errorEv "db down"] := by
  refine ⟨?_, ?_, ?_, ?_⟩ <;>
    simp [executeBenchmark, envPersistBothFail, runLoop, step, catchPath, initState,
      finishRun, rpcEndpoints, probeAll, sigTruthy, liveOkSend, isSuccessIter,
      successRec, elseRec, catchRec, failedResult, initialRun, jsOrNull, jsShow]

/-- C3 (amended): completed runs store
`successRate = toFixed(2)(successful / totalRequested * 100)` — two
decimal places, not one — so the count-3 scenario with the 2nd attempt
throwing ends `completed` with 2 successes, 1 failure and
`successRate = 66.67` (not `66.7`); and the `/complete-run` handler, which
divides by the number of recorded transactions rather than the requested
count, yields exactly `0` (not NaN) when no transactions were recorded. -/
theorem success_rate_formula_and_scenario :
    (∀ env : RunEnv, env.iters ≠ [] →
      (executeBenchmark env).run.status = "completed" →
      (executeBenchmark env).run.successRate =
        some (toFixedQ 2
          (((executeBenchmark env).run.successfulTransactions : ℚ) /
            ((executeBenchmark env).run.totalTransactions : ℚ) * 100))) ∧
    ((executeBenchmark envScenario3).run.status = "completed" ∧
     (executeBenchmark envScenario3).run.successfulTransactions = 2 ∧
     (executeBenchmark envScenario3).run.failedTransactions = 1 ∧
     (executeBenchmark envScenario3).run.successRate = some (6667 / 100)) ∧
    (completeRunStats []).successRate = 0 := by
  refine ⟨?_, ?_, ?_⟩
  · intro env hn hc
    obtain ⟨hk, ha, hu, st, hloop, hexec⟩ := executeBenchmark_completed_shape env hc
    rw [hexec, finishRun_run_eq env.iters.length st env hu]
  · refine ⟨?_, ?_, ?_, ?_⟩ <;>
    · simp [executeBenchmark, envScenario3, runLoop, step, catchPath, iterLiveOk, iterThrow,
        liveOkSend, initState, finishRun, rpcEndpoints, probeAll, sigTruthy, avgOr0,
        castList, sumQ, listMinN, listMaxN, successRec, elseRec, catchRec, failedResult,
        initialRun, jsOrNull, jsShow]
      try norm_num [toFixedQ]
  · norm_num [completeRunStats, toFixedQ]

/-- Witness for C3: the formula conjunct applied to the concrete
three-iteration scenario run. -/
theorem success_rate_formula_and_scenario_witness :
    (executeBenchmark envScenario3).run.successRate =
      some (toFixedQ 2
        (((executeBenchmark envScenario3).run.successfulTransactions : ℚ) /
          ((executeBenchmark envScenario3).run.totalTransactions : ℚ) * 100)) := by
  refine success_rate_formula_and_scenario.1 envScenario3 (by simp [envScenario3]) ?_
  simp [executeBenchmark, envScenario3, runLoop, step, catchPath, iterLiveOk, iterThrow,
    liveOkSend, initState, finishRun, rpcEndpoints, probeAll, sigTruthy, avgOr0,
    castList, sumQ, listMinN, listMaxN, successRec, elseRec, catchRec, failedResult,
    initialRun, jsOrNull, jsShow]

/-- Counterexample for C3: the scenario run's stored successRate is 66.67,
which is not the claimed one-decimal rendering 66.7. -/
theorem success_rate_not_one_decimal_cex :
    (executeBenchmark envScenario3).run.successRate = some (6667 / 100) ∧
    ((6667 : ℚ) / 100) ≠ 667 / 10 := by
  constructor
  · simp [executeBenchmark, envScenario3, runLoop, step, catchPath, iterLiveOk, iterThrow,
      liveOkSend, initState, finishRun, rpcEndpoints, probeAll, sigTruthy, avgOr0,
      castList, sumQ, listMinN, listMaxN, successRec, elseRec, catchRec, failedResult,
      initialRun, jsOrNull, jsShow]
    norm_num [toFixedQ]
  · norm_num

theorem combineAcc_empty_left (b : AggAcc) : combineAcc emptyAcc b = b := by
  simp [combineAcc, emptyAcc, optMin, optMax]

theorem optMin_assoc (a b c : Option ℕ) :
    optMin (optMin a b) c = optMin a (optMin b c) := by
  cases a <;> cases b <;> cases c <;> simp [optMin, Nat.min_assoc]

theorem optMax_assoc (a b c : Option ℕ) :
    optMax (optMax a b) c = optMax a (optMax b c) := by
  cases a <;> cases b <;> cases c <;> simp [optMax, Nat.max_assoc]

theorem combineAcc_assoc (a b c : AggAcc) :
    combineAcc (combineAcc a b) c = combineAcc a (combineAcc b c) := by
  simp [combineAcc, AggAcc.mk.injEq, Nat.add_assoc, optMin_assoc, optMax_assoc, add_assoc]

theorem foldr_combineAcc (b : AggAcc) (l : List AggAcc) :
    l.foldr combineAcc b = combineAcc (l.foldr combineAcc emptyAcc) b := by
  induction l with
  | nil => simp [combineAcc_empty_left]
  | cons a t ih => simp [List.foldr_cons, ih, combineAcc_assoc]

theorem aggAcc_succ_eq (txs : List AttemptRec) :
    (aggAcc txs).succ = (txs.filter (fun t => t.status == "success")).length := by
  induction txs with
  | nil => rfl
  | cons t ts ih =>
      simp only [aggAcc, List.map_cons, List.foldr_cons] at ih ⊢
      cases hs : (t.status == "success") <;>
        simp [combineAcc, attemptAcc, hs, List.filter_cons, ih] <;> omega

theorem aggAcc_costSum_eq (txs : List AttemptRec) :
    (aggAcc txs).costSum = sumQ (txs.map (fun t => t.feeSol.getD 0)) := by
  induction txs with
  | nil => rfl
  | cons t ts ih =>
      simp [aggAcc, List.map_cons, List.foldr_cons, combineAcc, attemptAcc, sumQ] at ih ⊢
      rw [ih]

/-- C4 (amended): the per-attempt reduction is an associative fold —
`aggAcc` is an append homomorphism for the associative `combineAcc`, and
the `/complete-run` reducer's count and cost-sum outputs are images of
that fold — so aggregating attempts `[A,B]` and then folding in `[C]`
agrees with aggregating `[A,B,C]`. The dashboard summary, however,
averages per-run averages (`avgLatency`, `avgCost`) without weighting and
therefore does NOT equal direct aggregation over the underlying attempts
(see the counterexample). -/
theorem aggregation_is_associative_fold :
    (∀ xs ys : List AttemptRec, aggAcc (xs ++ ys) = combineAcc (aggAcc xs) (aggAcc ys)) ∧
    (∀ a b c : AggAcc, combineAcc (combineAcc a b) c = combineAcc a (combineAcc b c)) ∧
    (∀ txs : List AttemptRec,
      (completeRunStats txs).successful = (aggAcc txs).succ ∧
      (completeRunStats txs).totalCost = toFixedQ 6 ((aggAcc txs).costSum)) := by
  refine ⟨?_, combineAcc_assoc, ?_⟩
  · intro xs ys
    unfold aggAcc
    rw [List.map_append, List.foldr_append, foldr_combineAcc]
  · intro txs
    refine ⟨?_, ?_⟩
    · rw [aggAcc_succ_eq]
      rfl
    · rw [aggAcc_costSum_eq]
      rfl

/-- Counterexample for C4: the dashboard's `avgLatency` over two completed
runs (one attempt at 100 ms; two attempts at 400 ms) is 250 ms, while
direct aggregation over the three underlying attempts gives 300 ms. -/
theorem dashboard_avg_not_attempt_aggregation_cex :
    (getBenchmarkAggregatedMetrics 1700000000000 "24h"
      [{ run := runOfStats 1 a1C4, createdAtMs := 1700000000000 },
       { run := runOfStats 2 a2C4, createdAtMs := 1700000000000 }]).avgLatency = 250 ∧
    (completeRunStats (a1C4 ++ a2C4)).avgLatency = 300 ∧
    (250 : ℚ) ≠ 300 := by
  refine ⟨?_, ?_, by norm_num⟩
  · simp [getBenchmarkAggregatedMetrics, getTimeWindowMs, runOfStats, completeRunStats,
      jsTruthyLat, avgOr0, castList, sumQ, listMinN, listMaxN, a1C4, a2C4]
    norm_num [toFixedQ]
  · simp [completeRunStats, jsTruthyLat, avgOr0, castList, sumQ, listMinN, listMaxN,
      a1C4, a2C4]
    norm_num [toFixedQ]

/-- C5 (amended): a completed run's avgLatency/minLatency/maxLatency are
computed over the in-memory latencies array, which holds exactly one entry
per iteration whose gateway round-trip returned without throwing —
unexpected-status failures included, but exception failures excluded even
though their attempt rows also record a latency — and all three are 0 when
that array is empty; when per-iteration persistence succeeds, every
persisted attempt row (success or failure) carries a recorded latencyMs. -/
theorem latency_metrics_over_returned_iterations (env : RunEnv)
    (hc : (executeBenchmark env).run.status = "completed") :
    (executeBenchmark env).run.avgLatency =
      some (toFixedQ 2 (avgOr0 (castList (liveLats env.iters)))) ∧
    (executeBenchmark env).run.minLatency =
      some (toFixedQ 2
        (if (liveLats env.iters).length ≠ 0 then (listMinN (liveLats env.iters) : ℚ) else 0)) ∧
    (executeBenchmark env).run.maxLatency =
      some (toFixedQ 2
        (if (liveLats env.iters).length ≠ 0 then (listMaxN (liveLats env.iters) : ℚ) else 0)) ∧
    (liveLats env.iters = [] →
      (executeBenchmark env).run.avgLatency = some 0 ∧
      (executeBenchmark env).run.minLatency = some 0 ∧
      (executeBenchmark env).run.maxLatency = some 0) ∧
    ((∀ i ∈ env.iters, i.persistSuccessErr = none ∧ i.persistElseErr = none) →
      ∀ t ∈ (executeBenchmark env).attempts, t.latencyMs.isSome = true) := by
  obtain ⟨hk, ha, hu, st, hloop, hexec⟩ := executeBenchmark_completed_shape env hc
  obtain ⟨hlats, -, -, -, hcounts⟩ :=
    runLoop_ok_spec env.iters env.iters.length 0 initState st hloop
  simp only [initState, List.nil_append] at hlats
  have hrun := finishRun_run_eq env.iters.length st env hu
  refine ⟨?_, ?_, ?_, ?_, ?_⟩
  · rw [hexec, hrun]
    simp [hlats]
  · rw [hexec, hrun]
    simp [hlats]
  · rw [hexec, hrun]
    simp [hlats]
  · intro hempty
    rw [hexec, hrun]
    simp [hlats, hempty, castList, avgOr0, sumQ]
    norm_num [toFixedQ]
  · intro hp t ht
    obtain ⟨-, -, hatts⟩ := hcounts hp
    rw [hexec, finishRun_attempts_eq env.iters.length st env hu] at ht
    rw [hatts] at ht
    simp only [initState, List.nil_append, List.mem_map] at ht
    obtain ⟨i, hi, rfl⟩ := ht
    unfold attemptOf
    cases hg : i.gateway with
    | error m => simp [catchRec]
    | ok r =>
        by_cases hs : (r.status == "success" && sigTruthy r.signature) = true <;>
          simp [hs, successRec, elseRec]

/-- Witness for C5: the three-iteration scenario run's latency summary
over its two returned iterations. -/
theorem latency_metrics_over_returned_iterations_witness :
    (executeBenchmark envScenario3).run.avgLatency =
      some (toFixedQ 2 (avgOr0 (castList (liveLats envScenario3.iters)))) := by
  refine (latency_metrics_over_returned_iterations envScenario3 ?_).1
  simp [executeBenchmark, envScenario3, runLoop, step, catchPath, iterLiveOk, iterThrow,
    liveOkSend, initState, finishRun, rpcEndpoints, probeAll, sigTruthy, avgOr0,
    castList, sumQ, listMinN, listMaxN, successRec, elseRec, catchRec, failedResult,
    initialRun, jsOrNull, jsShow]

/-- Counterexample for C5: a run whose only attempt threw after 500 ms
records that latency on the attempt row, yet the run's avgLatency is 0 —
not the average (500) over the attempts that have a recorded latency. -/
theorem latency_excludes_exception_attempts_cex :
    (executeBenchmark envOneThrow500).run.status = "completed" ∧
    (executeBenchmark envOneThrow500).attempts =
      [{ txHash := none, status := "failed", latencyMs := some 500, feeSol := none
         jitoTipRefunded := none, errorMessage := some "Network timeout" }] ∧
    (executeBenchmark envOneThrow500).run.avgLatency = some 0 ∧
    toFixedQ 2 (avgOr0 (castList
      (recordedLats (executeBenchmark envOneThrow500).attempts))) = 500 ∧
    (executeBenchmark envOneThrow500).run.avgLatency ≠
      some (toFixedQ 2 (avgOr0 (castList
        (recordedLats (executeBenchmark envOneThrow500).attempts)))) := by
  refine ⟨?_, ?_, ?_, ?_, ?_⟩ <;>
  · simp [executeBenchmark, envOneThrow500, runLoop, step, catchPath, iterThrow,
      initState, finishRun, rpcEndpoints, probeAll, sigTruthy, avgOr0, castList, sumQ,
      listMinN, listMaxN, successRec, elseRec, catchRec, failedResult, initialRun,
      jsOrNull, jsShow, recordedLats]
    try norm_num [toFixedQ]

/-- C6 (amended): when no RPC endpoint answers the liveness probe the run
records zero attempts and terminates `failed` with the fixed non-empty
error message; and an attempt failure alone (with healthy persistence and
final update) never aborts the run. Persistence failures while recording a
failed attempt, however, also abort the run, so setup failures are not the
only abort cause (see the counterexample). -/
theorem setup_failure_aborts_attempt_failure_does_not (env : RunEnv)
    (hk : env.keyParseErr = none) (ha : env.addressErr = none) :
    ((∀ ep ∈ rpcEndpoints, env.endpointProbe ep = false) →
      executeBenchmark env =
        { run := { initialRun env.iters.length with status := "failed" }
          attempts := []
          trace := [BenchAction.errorEv
            "All RPC endpoints are unavailable. Please try again later."] } ∧
      "All RPC endpoints are unavailable. Please try again later." ≠ "") ∧
    ((∀ i ∈ env.iters, i.persistSuccessErr = none ∧ i.persistElseErr = none ∧
        i.persistCatchErr = none) →
      (rpcEndpoints.find? env.endpointProbe).isSome = true →
      env.finalUpdateErr = none →
      (executeBenchmark env).run.status = "completed") := by
  constructor
  · intro hprobe
    have hfind : rpcEndpoints.find? env.endpointProbe = none := by
      rw [List.find?_eq_none]
      intro ep hep
      simp [hprobe ep hep]
    refine ⟨?_, by decide⟩
    unfold executeBenchmark
    dsimp only []
    rw [hk, ha, hfind]
    rfl
  · intro hp hep hu
    obtain ⟨st, hloop⟩ := runLoop_isOk env.iters env.iters.length 0 initState
      (fun i hi => (hp i hi).2.2)
    obtain ⟨ep, hepEq⟩ := Option.isSome_iff_exists.mp hep
    unfold executeBenchmark
    dsimp only []
    rw [hk, ha, hepEq, hloop]
    unfold finishRun
    dsimp only []
    rw [hu]

/-- Witness for C6: a concrete run with two requested transactions and no
answering endpoint records no attempts and fails with the fixed message. -/
theorem setup_failure_aborts_attempt_failure_does_not_witness :
    executeBenchmark
        { keyParseErr := none, addressErr := none, endpointProbe := probeNone
          iters := [iterThrow "boom" 10 20, iterLiveOk "sigW" 30], finalUpdateErr := none } =
      { run := { initialRun 2 with status := "failed" }
        attempts := []
        trace := [BenchAction.errorEv
          "All RPC endpoints are unavailable. Please try again later."] } := by
  have h := (setup_failure_aborts_attempt_failure_does_not
    { keyParseErr := none, addressErr := none, endpointProbe := probeNone
      iters := [iterThrow "boom" 10 20, iterLiveOk "sigW" 30], finalUpdateErr := none }
    rfl rfl).1 (fun ep _ => rfl)
  exact h.1

/-- Counterexample for C6: a run whose setup is healthy (key parsed, an
endpoint answered) is still aborted — by a persistence failure while
recording a failed attempt — so setup failures are not the only cause of
a run-level abort. -/
theorem non_setup_abort_cex :
    envCatchAbort.keyParseErr = none ∧
    (rpcEndpoints.find? envCatchAbort.endpointProbe).isSome = true ∧
    (executeBenchmark envCatchAbort).run.status = "failed" ∧
    (executeBenchmark envCatchAbort).attempts = [] ∧
    (executeBenchmark envCatchAbort).trace = [BenchAction.errorEv "insert failed"] := by
  refine ⟨rfl, by decide, ?_, ?_, ?_⟩ <;>
    simp [executeBenchmark, envCatchAbort, runLoop, step, catchPath, initState, finishRun,
      rpcEndpoints, probeAll, sigTruthy, successRec, elseRec, catchRec, failedResult,
      initialRun, jsOrNull, jsShow]

/-- C7 (amended): the runner's summary renders its monetary values
(avgCost, totalCost, tip-refund total) at 9 fractional digits, applied
only AFTER summing the raw per-attempt values; but the `/complete-run`
handler renders avgCost and totalCost at only 6 fractional digits, so
stored monetary values do not uniformly carry 9 digits of precision (see
the counterexample). -/
theorem monetary_nine_digits_in_runner_six_in_complete_run (env : RunEnv)
    (hc : (executeBenchmark env).run.status = "completed") :
    (executeBenchmark env).run.totalCost =
      some (toFixedQ 9 (sumQ (liveCosts env.iters))) ∧
    (executeBenchmark env).run.avgCost =
      some (toFixedQ 9 (avgOr0 (liveCosts env.iters))) ∧
    (executeBenchmark env).run.jitoTipRefunded =
      some (toFixedQ 9 (sumQ (liveRefunds env.iters))) ∧
    (∀ txs : List AttemptRec,
      (completeRunStats txs).totalCost =
        toFixedQ 6 (sumQ (txs.map (fun t => t.feeSol.getD 0))) ∧
      (completeRunStats txs).avgCost =
        toFixedQ 6 (avgOr0 (txs.map (fun t => t.feeSol.getD 0)))) := by
  obtain ⟨hk, ha, hu, st, hloop, hexec⟩ := executeBenchmark_completed_shape env hc
  obtain ⟨-, hcosts, hrefunds, -, -⟩ :=
    runLoop_ok_spec env.iters env.iters.length 0 initState st hloop
  simp only [initState, List.nil_append] at hcosts hrefunds
  have hrun := finishRun_run_eq env.iters.length st env hu
  refine ⟨?_, ?_, ?_, fun txs => ⟨rfl, rfl⟩⟩ <;>
  · rw [hexec, hrun]
    simp [hcosts, hrefunds]

/-- Witness for C7: the scenario run's 9-digit-rendered cost summary. -/
theorem monetary_nine_digits_in_runner_witness :
    (executeBenchmark envScenario3).run.totalCost =
      some (toFixedQ 9 (sumQ (liveCosts envScenario3.iters))) := by
  refine (monetary_nine_digits_in_runner_six_in_complete_run envScenario3 ?_).1
  simp [executeBenchmark, envScenario3, runLoop, step, catchPath, iterLiveOk, iterThrow,
    liveOkSend, initState, finishRun, rpcEndpoints, probeAll, sigTruthy, avgOr0,
    castList, sumQ, listMinN, listMaxN, successRec, elseRec, catchRec, failedResult,
    initialRun, jsOrNull, jsShow]

/-- Counterexample for C7: a stored fee of 0.0000004 SOL sums to a run
totalCost of 0 under the `/complete-run` handler's `toFixed(6)` rendering,
whereas the claimed 9-fractional-digit fixed-point value of the fee sum is
0.000000400 — the stored monetary value lost precision before reaching 9
digits. -/
theorem complete_run_six_digit_rounding_cex :
    (completeRunStats txSmallFee).totalCost = 0 ∧
    toFixedQ 9 (sumQ (txSmallFee.map (fun t => t.feeSol.getD 0))) = 4 / 10000000 ∧
    (completeRunStats txSmallFee).totalCost ≠
      toFixedQ 9 (sumQ (txSmallFee.map (fun t => t.feeSol.getD 0))) := by
  refine ⟨?_, ?_, ?_⟩ <;>
  · simp [completeRunStats, txSmallFee, jsTruthyLat, avgOr0, castList, sumQ,
      listMinN, listMaxN]
    norm_num [toFixedQ]

/-- C8 (amended): the ~1-second inter-attempt delay runs only for
iterations that reach the end of the try block (success branch or
unexpected-status branch with a successful store); an iteration that
lands in the catch handler — a thrown attempt or a failed try-block store
— proceeds to the next iteration without any delay. For a completed run
the number of sleeps equals the number of try-surviving iterations. -/
theorem sleep_only_after_surviving_try (env : RunEnv)
    (hc : (executeBenchmark env).run.status = "completed") :
    countSleep (executeBenchmark env).trace = (env.iters.filter iterSleeps).length := by
  obtain ⟨hk, ha, hu, st, hloop, hexec⟩ := executeBenchmark_completed_shape env hc
  obtain ⟨-, -, -, hsleep, -⟩ :=
    runLoop_ok_spec env.iters env.iters.length 0 initState st hloop
  rw [hexec, finishRun_countSleep env.iters.length st env hu, hsleep]
  simp [initState, countSleep]

/-- Witness for C8: the scenario run sleeps twice — once after each of its
two try-surviving iterations, none after the thrown one. -/
theorem sleep_only_after_surviving_try_witness :
    countSleep (executeBenchmark envScenario3).trace =
      (envScenario3.iters.filter iterSleeps).length := by
  refine sleep_only_after_surviving_try envScenario3 ?_
  simp [executeBenchmark, envScenario3, runLoop, step, catchPath, iterLiveOk, iterThrow,
    liveOkSend, initState, finishRun, rpcEndpoints, probeAll, sigTruthy, avgOr0,
    castList, sumQ, listMinN, listMaxN, successRec, elseRec, catchRec, failedResult,
    initialRun, jsOrNull, jsShow]

/-- Counterexample for C8: a run whose single attempt threw records one
attempt but zero sleeps — the delay is skipped for exception iterations,
so it is not unconditional on the attempt's outcome. -/
theorem sleep_skipped_on_exception_cex :
    (executeBenchmark envOneThrow300).run.status = "completed" ∧
    (executeBenchmark envOneThrow300).attempts.length = 1 ∧
    countSleep (executeBenchmark envOneThrow300).trace = 0 ∧
    countSleep (executeBenchmark envOneThrow300).trace ≠
      (executeBenchmark envOneThrow300).attempts.length := by
  refine ⟨?_, ?_, ?_, ?_⟩ <;>
    simp [executeBenchmark, envOneThrow300, runLoop, step, catchPath, iterThrow,
      initState, finishRun, rpcEndpoints, probeAll, sigTruthy, countSleep,
      successRec, elseRec, catchRec, failedResult, initialRun, jsOrNull, jsShow]
